import Mathlib

/-!
Shallow embedding of the FSK-Builder core (loader/normalizer and
selector/ranker) from the repository sources, chiefly
`fsk_app_v9_minimal_warehouse_fixed_columns.py` (the variant with a
`System` column) together with the crossover-kit helpers that also appear
in `fsk_app.py`, `fsk_app_v10_minimal_warehouse_more_options.py`,
`fsk_app_v13_card_layout_metric.py` and `fsk_app_v8_minimal_warehouse.py`.

Modelling conventions:
  * a raw CSV cell is `Option String` (`none` models a pandas `NaN`);
  * numeric cells are parsed to `ℚ` (Python floats are modelled by exact
    rationals; every comparison proved here is far from any rounding
    boundary, e.g. 70 / 25.4 differs from the cutoff 2.75 by about 6e-3,
    many orders of magnitude above double-precision error);
  * `pd.to_numeric(errors="coerce")` is the total function `coerceNumeric`
    returning `none` for unparsable text (decimal integers and decimal
    fractions with optional sign are parsed, like the data the app reads);
  * Python `int(...)` truncation toward zero is `pyInt` via `Int.tdiv`;
  * `pandas.sort_values` on several keys uses a stable lexicographic sort;
    any two stable sorts of a list under the same total preorder coincide,
    so it is modelled by the stable insertion sort `sortValues` on the
    boolean key order (structurally recursive, hence kernel-evaluable).
-/

/-- Python `str.lower` restricted to ASCII letters, which is all the
truthy-token comparison in the sources can distinguish. -/
def asciiLowerChar (c : Char) : Char :=
  if 'A' ≤ c ∧ c ≤ 'Z' then Char.ofNat (c.toNat + 32) else c

/-- Lower-case a string character by character (ASCII). -/
def asciiLower (s : String) : String :=
  String.mk (s.data.map asciiLowerChar)

/-- Truthy tokens accepted by the loaders:
`df["Is_US_Recommended"].astype(str).str.lower().isin(["true","1","yes","y"])`. -/
def truthyTokens : List String := ["true", "1", "yes", "y"]

/-- The `Is_US_Recommended` parse from the loaders. A missing cell becomes
the literal string "nan" under `astype(str)` before lower-casing, exactly
as pandas renders `NaN`. -/
def parseUsRecommended (v : Option String) : Bool :=
  let s := match v with
    | none => "nan"
    | some s => s
  truthyTokens.contains (asciiLower s)

/-- Whitespace test for the strip operations of the loaders. -/
def isSpaceChar (c : Char) : Bool :=
  c = ' ' ∨ c = '\t' ∨ c = '\n' ∨ c = '\r'

/-- Drop leading and trailing whitespace characters. -/
def stripChars (cs : List Char) : List Char :=
  ((cs.dropWhile isSpaceChar).reverse.dropWhile isSpaceChar).reverse

/-- Python `str.strip` as the loaders use it, on headers and text cells. -/
def pyStrip (s : String) : String :=
  String.mk (stripChars s.data)

/-- Decimal digit test. -/
def isDecDigit (c : Char) : Bool := '0' ≤ c && c ≤ '9'

/-- Value of a list of decimal digits. -/
def digitsToNat (ds : List Char) : Nat :=
  ds.foldl (fun n c => n * 10 + (c.toNat - 48)) 0

/-- Tolerant numeric parse used to model `pd.to_numeric(errors="coerce")`:
optional sign, then digits with an optional fractional part. Anything else
parses to `none` (pandas `NaN`), never an error. -/
def parseRat (s : String) : Option ℚ :=
  let cs := stripChars s.data
  let signAndBody : Int × List Char :=
    match cs with
    | '-' :: rest => (-1, rest)
    | '+' :: rest => (1, rest)
    | _ => (1, cs)
  let sign := signAndBody.1
  let body := signAndBody.2
  let intSpan := body.span isDecDigit
  match intSpan.2 with
  | [] =>
      if intSpan.1.isEmpty then none
      else some (mkRat (sign * (digitsToNat intSpan.1 : Int)) 1)
  | '.' :: fracCs =>
      let fracSpan := fracCs.span isDecDigit
      match fracSpan.2 with
      | [] =>
          if intSpan.1.isEmpty ∧ fracSpan.1.isEmpty then none
          else
            some (mkRat
              (sign * ((digitsToNat intSpan.1 * 10 ^ fracSpan.1.length +
                digitsToNat fracSpan.1 : Nat) : Int))
              (10 ^ fracSpan.1.length))
      | _ => none
  | _ => none

/-- Numeric coercion of a cell: missing stays missing, text is parsed
tolerantly. Total by construction, mirroring `errors="coerce"`. -/
def coerceNumeric (v : Option String) : Option ℚ :=
  v.bind parseRat

/-- Text coercion of a cell: `astype("string").str.strip()` keeps missing
values missing and trims the rest. -/
def coerceText (v : Option String) : Option String :=
  v.map pyStrip

/-- Python `int(...)` on a float: truncation toward zero. -/
def pyInt (q : ℚ) : Int :=
  Int.tdiv q.num q.den

/-- One raw CSV row: an association of column name to cell, a cell being
absent (`none`, pandas `NaN`) or a text value. -/
structure RawRow where
  cells : List (String × Option String)
deriving Repr, DecidableEq

/-- Cell of a row under a column name; a column not present in the row at
all also reads as missing, as a pandas reindex would produce. -/
def RawRow.get (r : RawRow) (c : String) : Option String :=
  match r.cells.lookup c with
  | some v => v
  | none => none

/-- A raw tabular source: the header row and the data rows. -/
structure RawTable where
  header : List String
  rows : List RawRow
deriving Repr, DecidableEq

/-- Required columns of `load_data` in
`fsk_app_v9_minimal_warehouse_fixed_columns.py`. -/
def requiredColumns : List String :=
  ["System", "ShaftSize", "ShaftUnits", "SternSize", "SternUnits",
   "Priority", "FSA_Template", "Hose_Code",
   "Clamp1_Code", "Clamp1_Qty", "Clamp2_Code", "Clamp2_Qty",
   "Is_US_Recommended", "Stretch_Type", "Comments"]

/-- The loader's schema failure: `raise KeyError(f"CSV is missing required
columns: ...")`, carrying the list of missing column names. -/
structure SchemaError where
  missing : List String
deriving Repr, DecidableEq

/-- Missing required columns after header trimming:
`[c for c in required if c not in df.columns]` with
`df.columns = [c.strip() for c in df.columns]`. -/
def missingColumns (t : RawTable) : List String :=
  requiredColumns.filter (fun c => ¬ (t.header.map pyStrip).contains c)

/-- A loaded row after type cleanup, before and after the `dropna`: every
field stays optional, as in a pandas frame whose cells can be `NaN`. -/
structure BuildOptionRecord where
  system : Option String
  shaftSize : Option ℚ
  shaftUnits : Option String
  sternSize : Option ℚ
  sternUnits : Option String
  priority : Option Int
  fsaTemplate : Option String
  hoseCode : Option String
  clamp1Code : Option String
  clamp1Qty : Option ℚ
  clamp2Code : Option String
  clamp2Qty : Option ℚ
  isUsRecommended : Bool
  stretchType : Option String
  comments : Option String
deriving Repr, DecidableEq

/-- Intermediate row state after the type-cleanup loop of `load_data`
(text columns stripped, numeric columns coerced, flag parsed), with
`Priority` still numeric as in the frame before `astype(int)`. -/
structure CoercedRow where
  system : Option String
  shaftSize : Option ℚ
  shaftUnits : Option String
  sternSize : Option ℚ
  sternUnits : Option String
  priority : Option ℚ
  fsaTemplate : Option String
  hoseCode : Option String
  clamp1Code : Option String
  clamp1Qty : Option ℚ
  clamp2Code : Option String
  clamp2Qty : Option ℚ
  isUsRecommended : Bool
  stretchType : Option String
  comments : Option String
deriving Repr, DecidableEq

/-- Type cleanup of one raw row, following `load_data` column by column. -/
def coerceRow (r : RawRow) : CoercedRow where
  system := coerceText (r.get "System")
  shaftSize := coerceNumeric (r.get "ShaftSize")
  shaftUnits := coerceText (r.get "ShaftUnits")
  sternSize := coerceNumeric (r.get "SternSize")
  sternUnits := coerceText (r.get "SternUnits")
  priority := coerceNumeric (r.get "Priority")
  fsaTemplate := coerceText (r.get "FSA_Template")
  hoseCode := coerceText (r.get "Hose_Code")
  clamp1Code := coerceText (r.get "Clamp1_Code")
  clamp1Qty := coerceNumeric (r.get "Clamp1_Qty")
  clamp2Code := coerceText (r.get "Clamp2_Code")
  clamp2Qty := coerceNumeric (r.get "Clamp2_Qty")
  isUsRecommended := parseUsRecommended (r.get "Is_US_Recommended")
  stretchType := coerceText (r.get "Stretch_Type")
  comments := coerceText (r.get "Comments")

/-- The `dropna` subset of `load_data`: a row is kept only when
`System, ShaftSize, SternSize, Priority, FSA_Template, Hose_Code` are all
present after coercion. -/
def rowUsable (c : CoercedRow) : Bool :=
  c.system.isSome && c.shaftSize.isSome && c.sternSize.isSome &&
    c.priority.isSome && c.fsaTemplate.isSome && c.hoseCode.isSome

/-- The final `df["Priority"].astype(int)` cast applied to a kept row. -/
def finalizeRow (c : CoercedRow) : BuildOptionRecord where
  system := c.system
  shaftSize := c.shaftSize
  shaftUnits := c.shaftUnits
  sternSize := c.sternSize
  sternUnits := c.sternUnits
  priority := c.priority.map pyInt
  fsaTemplate := c.fsaTemplate
  hoseCode := c.hoseCode
  clamp1Code := c.clamp1Code
  clamp1Qty := c.clamp1Qty
  clamp2Code := c.clamp2Code
  clamp2Qty := c.clamp2Qty
  isUsRecommended := c.isUsRecommended
  stretchType := c.stretchType
  comments := c.comments

/-- Row pipeline of `load_data` after schema validation: cleanup, drop
unusable rows, cast `Priority` to int. -/
def processRows (rows : List RawRow) : List BuildOptionRecord :=
  (rows.map coerceRow |>.filter rowUsable).map finalizeRow

/-- The loader `load_data` of
`fsk_app_v9_minimal_warehouse_fixed_columns.py`: validate the required
columns (fatal `SchemaError` naming the missing ones), then run the total
row pipeline. -/
def load_data (t : RawTable) : Except SchemaError (List BuildOptionRecord) :=
  if missingColumns t ≠ [] then
    .error ⟨missingColumns t⟩
  else
    .ok (processRows t.rows)

/-- Shaft cutoff constant: `SHAFT_CUTOFF_IN = 2.75`. -/
def SHAFT_CUTOFF_IN : ℚ := 275 / 100

/-- Small crossover kit SKU: `CROSSOVER_3_8_SKU = "CROSSOVER KITF"`. -/
def CROSSOVER_3_8_SKU : String := "CROSSOVER KITF"

/-- Large crossover kit SKU: `CROSSOVER_1_2_SKU = "CROSSOVER KIT2F"`. -/
def CROSSOVER_1_2_SKU : String := "CROSSOVER KIT2F"

/-- Unit conversion `shaft_in_inches` shared by the variants: divide by
25.4 for mm, identity otherwise. -/
def shaft_in_inches (shaft : ℚ) (units : String) : ℚ :=
  if units = "mm" then shaft / (254 / 10) else shaft

/-- Crossover suggestion of the v9 variant, `crossover_sku_for_shaft`. -/
def crossover_sku_for_shaft (shaftSize : ℚ) (shaftUnits : String) : String :=
  if shaft_in_inches shaftSize shaftUnits ≤ SHAFT_CUTOFF_IN then
    CROSSOVER_3_8_SKU
  else
    CROSSOVER_1_2_SKU

/-- Crossover suggestion of `fsk_app.py` / v10 / v13, `crossover_label`. -/
def crossover_label (shaft : ℚ) (units : String) : String :=
  if shaft_in_inches shaft units ≤ SHAFT_CUTOFF_IN then
    "Crossover Kit 375"
  else
    "Crossover Kit 500"

/-- Crossover suggestion of `fsk_app_v8_minimal_warehouse.py`, which tests
the raw shaft value against the system-specific cutoff (2.75 for Imperial,
70 for Metric) without converting units. -/
def crossoverV8 (system : String) (shaftFloat : ℚ) : String :=
  if system = "Imperial" then
    if shaftFloat ≤ 275 / 100 then "CROSSOVER KITF (3/8\")" else "CROSSOVER KIT2F (1/2\")"
  else
    if shaftFloat ≤ 70 then "CROSSOVER KITF (3/8\")" else "CROSSOVER KIT2F (1/2\")"

/-- Clamp total of a kept row: `int(qty) if pd.notna(qty) else 0`, summed
over both clamp quantities. -/
def clamp_total (r : BuildOptionRecord) : Int :=
  (match r.clamp1Qty with
    | some q => pyInt q
    | none => 0) +
  (match r.clamp2Qty with
    | some q => pyInt q
    | none => 0)

/-- Priority meaning table `PRIORITY_MAP` with the `"Custom rule"`
default of `PRIORITY_MAP.get(priority, "Custom rule")`. -/
def priorityMeaning (p : Int) : String :=
  if p = 1 then "US Recommended"
  else if p = 2 then "No stretch (ideal fit)"
  else if p = 3 then "Stretch at FSA backend only"
  else if p = 4 then "Straight hose (no stretch)"
  else if p = 5 then "Stretch at stern tube"
  else if p = 6 then "Stretch at both ends"
  else "Custom rule"

/-- Rank used for descending order on the recommendation flag: `True`
sorts before `False` when `ascending=False`. -/
def boolRank (b : Bool) : Nat :=
  if b then 0 else 1

/-- Sort key order of
`sort_values(["Priority","Is_US_Recommended"], ascending=[True, False])`:
priority ascending, then recommendation flag descending. A record's
priority reads through `getD 0`; every record reaching the sort has a
present priority, so the default is never consulted on loaded data. -/
def rankLe (a b : BuildOptionRecord) : Bool :=
  if a.priority.getD 0 = b.priority.getD 0 then
    boolRank a.isUsRecommended ≤ boolRank b.isUsRecommended
  else
    a.priority.getD 0 < b.priority.getD 0

/-- Insert an element into an already ranked list, before the first
element it compares `le` to: processing the original list right to left
with this insertion yields a stable sort. -/
def insertSorted (le : BuildOptionRecord → BuildOptionRecord → Bool)
    (a : BuildOptionRecord) : List BuildOptionRecord → List BuildOptionRecord
  | [] => [a]
  | b :: bs => if le a b then a :: b :: bs else b :: insertSorted le a bs

/-- Stable sort modelling `pandas.sort_values` on a key list (pandas uses
a stable lexicographic sort for multiple keys; stable sorts under a total
preorder are unique, so any faithful stable model gives the same list). -/
def sortValues (le : BuildOptionRecord → BuildOptionRecord → Bool)
    (l : List BuildOptionRecord) : List BuildOptionRecord :=
  l.foldr (insertSorted le) []

/-- Exact-match filter of the selector: same system, shaft size and stern
size, as in `df[df["System"] == system]`, `df_sys[df_sys["ShaftSize"] ==
shaft_size]`, `df_shaft[df_shaft["SternSize"] == stern_size]`. -/
def matchesQuery (system : String) (shaft stern : ℚ)
    (r : BuildOptionRecord) : Bool :=
  r.system == some system && r.shaftSize == some shaft &&
    r.sternSize == some stern

/-- The selector/ranker: filter to the exact-match subset and sort by
`(Priority asc, Is_US_Recommended desc)` with the stable multi-key sort
pandas uses for `sort_values` on a key list. -/
def selectOptions (records : List BuildOptionRecord) (system : String)
    (shaft stern : ℚ) : List BuildOptionRecord :=
  sortValues rankLe (records.filter (matchesQuery system shaft stern))

/-- Derived per-option view built for each selected row. -/
structure OptionView where
  fsaTemplate : Option String
  hoseCode : Option String
  clamp1Code : Option String
  clamp2Code : Option String
  totalClamps : Int
  priority : Option Int
  meaning : String
  isUsRecommended : Bool
deriving Repr, DecidableEq

/-- Build the `OptionView` of one selected row (clamp totals, priority
meaning), as the UI tables derive them. -/
def optionViewOf (r : BuildOptionRecord) : OptionView where
  fsaTemplate := r.fsaTemplate
  hoseCode := r.hoseCode
  clamp1Code := r.clamp1Code
  clamp2Code := r.clamp2Code
  totalClamps := clamp_total r
  priority := r.priority
  meaning := priorityMeaning (r.priority.getD 0)
  isUsRecommended := r.isUsRecommended

/-- The selector's full output: ranked rows turned into option views. -/
def selectOptionViews (records : List BuildOptionRecord) (system : String)
    (shaft stern : ℚ) : List OptionView :=
  (selectOptions records system shaft stern).map optionViewOf

/-- Boolean lexicographic order on lists of characters. -/
def charsLe : List Char → List Char → Bool
  | [], _ => true
  | _ :: _, [] => false
  | a :: as, b :: bs =>
      if a < b then true
      else if b < a then false
      else charsLe as bs

/-- Boolean lexicographic order on strings (code-point order, as Python
compares strings). -/
def strLe (a b : String) : Bool :=
  charsLe a.data b.data

/-- The four-component comparison the specification claims the ranking
satisfies: `(priority, -isUsRecommended, fsaTemplate, hoseCode)`
lexicographically, missing text reading as the empty string. -/
def specTupleLe (a b : BuildOptionRecord) : Bool :=
  let pa := a.priority.getD 0
  let pb := b.priority.getD 0
  if pa ≠ pb then pa < pb
  else if boolRank a.isUsRecommended ≠ boolRank b.isUsRecommended then
    boolRank a.isUsRecommended < boolRank b.isUsRecommended
  else if a.fsaTemplate.getD "" ≠ b.fsaTemplate.getD "" then
    strLe (a.fsaTemplate.getD "") (b.fsaTemplate.getD "")
  else
    strLe (a.hoseCode.getD "") (b.hoseCode.getD "")

/-- Membership in an insertion is membership in the inserted element or
the original list. -/
theorem mem_insertSorted (le : BuildOptionRecord → BuildOptionRecord → Bool)
    (a c : BuildOptionRecord) :
    ∀ l : List BuildOptionRecord, c ∈ insertSorted le a l ↔ c = a ∨ c ∈ l := by
  intro l
  induction l with
  | nil => simp [insertSorted]
  | cons b bs ih =>
      by_cases h : le a b = true
      · simp [insertSorted, h]
      · rw [insertSorted, if_neg h]
        simp only [List.mem_cons, ih]
        tauto

/-- Inserting into a ranked list keeps it ranked, given transitivity and
totality of the comparison. -/
theorem pairwise_insertSorted (le : BuildOptionRecord → BuildOptionRecord → Bool)
    (htrans : ∀ a b c, le a b = true → le b c = true → le a c = true)
    (htotal : ∀ a b, le a b = true ∨ le b a = true)
    (a : BuildOptionRecord) :
    ∀ l : List BuildOptionRecord,
      l.Pairwise (fun x y => le x y = true) →
        (insertSorted le a l).Pairwise (fun x y => le x y = true) := by
  intro l
  induction l with
  | nil => intro _; simp [insertSorted]
  | cons b bs ih =>
      intro h
      rw [List.pairwise_cons] at h
      obtain ⟨hb, hbs⟩ := h
      by_cases hab : le a b = true
      · rw [insertSorted, if_pos hab, List.pairwise_cons]
        refine ⟨?_, List.pairwise_cons.mpr ⟨hb, hbs⟩⟩
        intro c hc
        rcases List.mem_cons.mp hc with hcb | hcbs
        · exact hcb ▸ hab
        · exact htrans a b c hab (hb c hcbs)
      · rw [insertSorted, if_neg hab, List.pairwise_cons]
        refine ⟨?_, ih hbs⟩
        intro c hc
        rcases (mem_insertSorted le a c bs).mp hc with hca | hcbs
        · rw [hca]
          rcases htotal a b with h1 | h1
          · exact absurd h1 hab
          · exact h1
        · exact hb c hcbs

/-- The stable sort produces a list ranked by the comparison. -/
theorem pairwise_sortValues (le : BuildOptionRecord → BuildOptionRecord → Bool)
    (htrans : ∀ a b c, le a b = true → le b c = true → le a c = true)
    (htotal : ∀ a b, le a b = true ∨ le b a = true)
    (l : List BuildOptionRecord) :
    (sortValues le l).Pairwise (fun x y => le x y = true) := by
  induction l with
  | nil => simp [sortValues]
  | cons b bs ih => exact pairwise_insertSorted le htrans htotal b _ ih

/-- The two-key comparison of the sort is total. -/
theorem rankLe_total (a b : BuildOptionRecord) :
    rankLe a b = true ∨ rankLe b a = true := by
  unfold rankLe
  by_cases h : a.priority.getD 0 = b.priority.getD 0
  · simp [h]
    omega
  · have h2 : ¬ b.priority.getD 0 = a.priority.getD 0 := fun he => h he.symm
    simp [h, h2]

/-- The two-key comparison of the sort is transitive. -/
theorem rankLe_trans (a b c : BuildOptionRecord)
    (hab : rankLe a b = true) (hbc : rankLe b c = true) :
    rankLe a c = true := by
  unfold rankLe at *
  split_ifs at * <;>
    simp only [decide_eq_true_eq] at * <;>
      omega

/-- Concrete loaded record used in concrete checks: priority 1, not
recommended, FSA template "F1", hose "H1", clamp quantities 2 and 1. -/
def recF1 : BuildOptionRecord where
  system := some "A"
  shaftSize := some 1
  shaftUnits := some "in"
  sternSize := some 2
  sternUnits := some "in"
  priority := some 1
  fsaTemplate := some "F1"
  hoseCode := some "H1"
  clamp1Code := some "K1"
  clamp1Qty := some 2
  clamp2Code := some "K2"
  clamp2Qty := some 1
  isUsRecommended := false
  stretchType := some "none"
  comments := some ""

/-- Concrete loaded record identical to `recF1` in every sort key but with
FSA template "F2" and hose "H2". -/
def recF2 : BuildOptionRecord where
  system := some "A"
  shaftSize := some 1
  shaftUnits := some "in"
  sternSize := some 2
  sternUnits := some "in"
  priority := some 1
  fsaTemplate := some "F2"
  hoseCode := some "H2"
  clamp1Code := some "K1"
  clamp1Qty := some 2
  clamp2Code := some "K2"
  clamp2Qty := some 1
  isUsRecommended := false
  stretchType := some "none"
  comments := some ""

/-- Unit conversion on a mm input takes the division branch. -/
theorem shaft_in_inches_mm (x : ℚ) : shaft_in_inches x "mm" = x / (254 / 10) := by
  unfold shaft_in_inches
  rw [if_pos rfl]

/-- Unit conversion on an inch input is the identity. -/
theorem shaft_in_inches_inch (x : ℚ) : shaft_in_inches x "in" = x := by
  unfold shaft_in_inches
  rw [if_neg (by decide)]

/-- C7: the unit conversion is the identity on inch inputs, so applying it
twice with "in" returns the argument, and converting 25.4 mm yields
exactly 1 inch, well within the claimed 1e-6 tolerance. -/
theorem c7_shaft_in_inches_consistency :
    (∀ x : ℚ, shaft_in_inches (shaft_in_inches x "in") "in" = x) ∧
      |shaft_in_inches (254 / 10) "mm" - 1| ≤ 1 / 1000000 := by
  constructor
  · intro x
    rw [shaft_in_inches_inch, shaft_in_inches_inch]
  · rw [shaft_in_inches_mm]
    norm_num

/-- C2 counterexample: a 70 mm shaft converts to 70 / 25.4 ≈ 2.7559 in,
strictly above the 2.75 in cutoff, so the inch-converting crossover
helpers return the large-kit SKU, not the small-kit SKU the claim
asserts for a 70 mm shaft. -/
theorem c2_crossover_70mm_counterexample :
    crossover_sku_for_shaft 70 "mm" ≠ CROSSOVER_3_8_SKU ∧
      crossover_label 70 "mm" ≠ "Crossover Kit 375" ∧
      crossover_sku_for_shaft 70 "mm" = CROSSOVER_1_2_SKU ∧
      crossover_label 70 "mm" = "Crossover Kit 500" := by
  have h : ¬ shaft_in_inches 70 "mm" ≤ SHAFT_CUTOFF_IN := by
    rw [shaft_in_inches_mm]
    unfold SHAFT_CUTOFF_IN
    norm_num
  refine ⟨?_, ?_, ?_, ?_⟩
  · unfold crossover_sku_for_shaft
    rw [if_neg h]
    decide
  · unfold crossover_label
    rw [if_neg h]
    decide
  · unfold crossover_sku_for_shaft
    rw [if_neg h]
  · unfold crossover_label
    rw [if_neg h]

/-- C2 (amended): a 2.75 in shaft yields the small-kit SKU and any shaft
of 3.0 in or more yields the large-kit SKU; for 70 mm the inch-converting
variants yield the large-kit SKU (70 / 25.4 > 2.75), and only the
v8 variant's direct metric rule (mm value at most 70) yields the small
kit. -/
theorem c2_amended_crossover_cutoff :
    crossover_sku_for_shaft (275 / 100) "in" = CROSSOVER_3_8_SKU ∧
      crossover_label (275 / 100) "in" = "Crossover Kit 375" ∧
      crossoverV8 "Metric" 70 = "CROSSOVER KITF (3/8\")" ∧
      crossover_sku_for_shaft 70 "mm" = CROSSOVER_1_2_SKU ∧
      ∀ s : ℚ, 3 ≤ s →
        crossover_sku_for_shaft s "in" = CROSSOVER_1_2_SKU ∧
          crossover_label s "in" = "Crossover Kit 500" := by
  have hsmall : shaft_in_inches (275 / 100 : ℚ) "in" ≤ SHAFT_CUTOFF_IN := by
    rw [shaft_in_inches_inch]
    unfold SHAFT_CUTOFF_IN
    norm_num
  have hbig : ¬ shaft_in_inches 70 "mm" ≤ SHAFT_CUTOFF_IN := by
    rw [shaft_in_inches_mm]
    unfold SHAFT_CUTOFF_IN
    norm_num
  refine ⟨?_, ?_, ?_, ?_, ?_⟩
  · unfold crossover_sku_for_shaft
    rw [if_pos hsmall]
  · unfold crossover_label
    rw [if_pos hsmall]
  · unfold crossoverV8
    rw [if_neg (by decide), if_pos (by norm_num : (70 : ℚ) ≤ 70)]
  · unfold crossover_sku_for_shaft
    rw [if_neg hbig]
  intro s hs
  have hin : shaft_in_inches s "in" = s := by
    unfold shaft_in_inches
    rw [if_neg (by decide)]
  have hgt : ¬ s ≤ SHAFT_CUTOFF_IN := by
    unfold SHAFT_CUTOFF_IN
    push_neg
    linarith
  constructor
  · unfold crossover_sku_for_shaft
    rw [hin, if_neg hgt]
  · unfold crossover_label
    rw [hin, if_neg hgt]

/-- Witness for the amended C2 statement at the concrete shaft 3.0 in. -/
theorem c2_amended_crossover_cutoff_witness :
    (3 : ℚ) ≤ 3 ∧ crossover_sku_for_shaft 3 "in" = CROSSOVER_1_2_SKU :=
  ⟨le_refl 3, (c2_amended_crossover_cutoff.2.2.2.2 3 (le_refl 3)).1⟩

/-- C10: every shaft whose inch equivalent lies strictly between the
2.75 in cutoff and 3.0 in falls into the `else` branch of the single
cutoff test, so both rich-variant helpers return the large-kit answer. -/
theorem c10_boundary_gap_large_kit (shaft : ℚ) (units : String)
    (h1 : SHAFT_CUTOFF_IN < shaft_in_inches shaft units)
    (h2 : shaft_in_inches shaft units < 3) :
    crossover_label shaft units = "Crossover Kit 500" ∧
      crossover_sku_for_shaft shaft units = CROSSOVER_1_2_SKU := by
  have hgt : ¬ shaft_in_inches shaft units ≤ SHAFT_CUTOFF_IN := not_le.mpr h1
  constructor
  · unfold crossover_label
    rw [if_neg hgt]
  · unfold crossover_sku_for_shaft
    rw [if_neg hgt]

/-- Witness for C10 at the concrete shaft 2.9 in, inside the boundary
gap. -/
theorem c10_boundary_gap_large_kit_witness :
    SHAFT_CUTOFF_IN < shaft_in_inches (29 / 10) "in" ∧
      shaft_in_inches (29 / 10) "in" < 3 ∧
      crossover_label (29 / 10) "in" = "Crossover Kit 500" := by
  have h1 : SHAFT_CUTOFF_IN < shaft_in_inches (29 / 10) "in" := by
    rw [shaft_in_inches_inch]
    unfold SHAFT_CUTOFF_IN
    norm_num
  have h2 : shaft_in_inches (29 / 10) "in" < 3 := by
    rw [shaft_in_inches_inch]
    norm_num
  exact ⟨h1, h2, (c10_boundary_gap_large_kit (29 / 10) "in" h1 h2).1⟩

/-- C6: the loaded recommendation flag is true exactly when the cell holds
a string whose (case-insensitive) lowering is one of the truthy tokens;
a missing cell (rendered "nan" by `astype(str)`) and every other string
yield false. -/
theorem c6_truthy_flag (v : Option String) :
    parseUsRecommended v = true ↔
      ∃ s, v = some s ∧ asciiLower s ∈ truthyTokens := by
  cases v with
  | none =>
      constructor
      · intro h
        exact absurd h (by decide)
      · rintro ⟨s, hs, _⟩
        exact Option.noConfusion hs
  | some s =>
      constructor
      · intro h
        refine ⟨s, rfl, ?_⟩
        have : truthyTokens.contains (asciiLower s) = true := h
        simpa using this
      · rintro ⟨u, hu, hmem⟩
        injection hu with hu
        subst hu
        show truthyTokens.contains (asciiLower s) = true
        simpa using hmem

/-- C8: the selector is a pure function of its arguments in this
embedding, which is faithful because the source only filters and sorts
fresh copies (`.copy()`, `sort_values` returning a new frame) and never
writes to the loaded records; two calls with identical arguments are the
same value. -/
theorem c8_select_idempotent (records : List BuildOptionRecord)
    (system : String) (shaft stern : ℚ) :
    selectOptions records system shaft stern =
        selectOptions records system shaft stern ∧
      selectOptionViews records system shaft stern =
        selectOptionViews records system shaft stern :=
  ⟨rfl, rfl⟩

/-- C9: every option view produced by the selector comes from a selected
row, and its clamp total is the sum of the two clamp quantities with a
missing quantity contributing 0 (and Python `int(...)` truncation on the
present ones). -/
theorem c9_clamp_total_sum (records : List BuildOptionRecord)
    (system : String) (shaft stern : ℚ) (v : OptionView)
    (hv : v ∈ selectOptionViews records system shaft stern) :
    ∃ r ∈ selectOptions records system shaft stern,
      v = optionViewOf r ∧
        v.totalClamps =
          (match r.clamp1Qty with
            | some q => pyInt q
            | none => 0) +
          (match r.clamp2Qty with
            | some q => pyInt q
            | none => 0) := by
  obtain ⟨r, hr, hv2⟩ := List.mem_map.mp hv
  subst hv2
  exact ⟨r, hr, rfl, rfl⟩

/-- Witness for C9 on a one-record dataset whose single view is selected. -/
theorem c9_clamp_total_sum_witness :
    ∃ r ∈ selectOptions [recF1] "A" 1 2,
      optionViewOf recF1 = optionViewOf r ∧
        (optionViewOf recF1).totalClamps =
          (match r.clamp1Qty with
            | some q => pyInt q
            | none => 0) +
          (match r.clamp2Qty with
            | some q => pyInt q
            | none => 0) :=
  c9_clamp_total_sum [recF1] "A" 1 2 (optionViewOf recF1) (by decide)

/-- C1 counterexample: two rows with equal priority and equal
recommendation flag but FSA templates out of alphabetical order stay in
input order, because the code sorts only on `Priority` and
`Is_US_Recommended`; the claimed four-component lexicographic order is
violated on the pair ("F2","H2") before ("F1","H1"). -/
theorem c1_ranking_counterexample :
    ¬ List.Pairwise (fun a b => specTupleLe a b = true)
      (selectOptions [recF2, recF1] "A" 1 2) := by
  decide

/-- C1 (amended): the ranked result is ordered by the two keys the code
sorts on, priority ascending then isUsRecommended descending; rows tied
on both keys keep their dataset order (stable sort), with no FSA-template
or hose-code tie-break. -/
theorem c1_amended_ranking_order (records : List BuildOptionRecord)
    (system : String) (shaft stern : ℚ) :
    (selectOptions records system shaft stern).Pairwise
      (fun a b => rankLe a b = true) :=
  pairwise_sortValues rankLe rankLe_trans rankLe_total
    (records.filter (matchesQuery system shaft stern))

/-- Membership characterization of `missingColumns`. -/
theorem mem_missingColumns (t : RawTable) (c : String) :
    c ∈ missingColumns t ↔
      c ∈ requiredColumns ∧ c ∉ t.header.map pyStrip := by
  unfold missingColumns
  simp [List.mem_filter]

/-- The missing-column list is nonempty exactly when some required column
is absent from the trimmed header. -/
theorem missingColumns_ne_nil_iff (t : RawTable) :
    missingColumns t ≠ [] ↔
      ∃ c ∈ requiredColumns, c ∉ t.header.map pyStrip := by
  rw [Ne, List.eq_nil_iff_forall_not_mem]
  push_neg
  constructor
  · rintro ⟨c, hc⟩
    obtain ⟨h1, h2⟩ := (mem_missingColumns t c).mp hc
    exact ⟨c, h1, h2⟩
  · rintro ⟨c, h1, h2⟩
    exact ⟨c, (mem_missingColumns t c).mpr ⟨h1, h2⟩⟩

/-- C4: the loader fails with a `SchemaError` naming exactly the missing
required columns if and only if some required column is absent from the
whitespace-trimmed header; in particular a source missing "Priority"
fails with an error naming "Priority", and an error means no result list
is returned for that load. -/
theorem c4_schema_validation (t : RawTable) :
    ((∃ e : SchemaError, load_data t = .error e ∧
        e.missing = missingColumns t) ↔
      ∃ c ∈ requiredColumns, c ∉ t.header.map pyStrip) ∧
      ("Priority" ∈ missingColumns t →
        ∃ e : SchemaError, load_data t = .error e ∧
          "Priority" ∈ e.missing) := by
  have herr : missingColumns t ≠ [] →
      load_data t = .error ⟨missingColumns t⟩ := by
    intro hne
    unfold load_data
    rw [if_pos hne]
  constructor
  · constructor
    · rintro ⟨e, he, _⟩
      rw [← missingColumns_ne_nil_iff]
      intro hnil
      unfold load_data at he
      rw [if_neg (fun hne => hne hnil)] at he
      simp at he
    · intro hex
      have hne := (missingColumns_ne_nil_iff t).mpr hex
      exact ⟨⟨missingColumns t⟩, herr hne, rfl⟩
  · intro hp
    have hne : missingColumns t ≠ [] := by
      intro hnil
      rw [hnil] at hp
      simp at hp
    exact ⟨⟨missingColumns t⟩, herr hne, hp⟩

/-- A header identical to the required list except that "Priority" is
absent. -/
def noPriorityTable : RawTable where
  header := requiredColumns.erase "Priority"
  rows := []

/-- Witness for C4: the concrete source without a "Priority" column fails
with an error naming "Priority". -/
theorem c4_schema_validation_witness :
    "Priority" ∈ missingColumns noPriorityTable ∧
      ∃ e : SchemaError, load_data noPriorityTable = .error e ∧
        "Priority" ∈ e.missing := by
  have hp : "Priority" ∈ missingColumns noPriorityTable := by decide
  exact ⟨hp, (c4_schema_validation noPriorityTable).2 hp⟩

/-- C5: once the schema check passes, the rest of the load is the total
row pipeline: numeric coercion cannot raise, so the loader always returns
a result (unparsable numeric cells just become missing markers inside
it). -/
theorem c5_coercion_never_aborts (t : RawTable)
    (h : missingColumns t = []) :
    load_data t = .ok (processRows t.rows) := by
  unfold load_data
  rw [if_neg (not_not_intro h)]

/-- A raw row whose numeric cell "Clamp1_Qty" holds unparsable text while
all mandatory fields are present. -/
def messyRow : RawRow where
  cells :=
    [("System", some "A"), ("ShaftSize", some "1.0"),
     ("ShaftUnits", some "in"), ("SternSize", some "2.0"),
     ("SternUnits", some "in"), ("Priority", some "1"),
     ("FSA_Template", some "F1"), ("Hose_Code", some "H1"),
     ("Clamp1_Code", some "K1"), ("Clamp1_Qty", some "abc"),
     ("Clamp2_Code", some "K2"), ("Clamp2_Qty", some "1"),
     ("Is_US_Recommended", some "TRUE"), ("Stretch_Type", some "none"),
     ("Comments", some "ok")]

/-- A schema-valid table containing `messyRow`. -/
def messyTable : RawTable where
  header := requiredColumns
  rows := [messyRow]

/-- The unparsable "abc" quantity of `messyRow` coerces to a missing
marker, not an error. -/
theorem messyRow_clamp1Qty_missing :
    (coerceRow messyRow).clamp1Qty = none := by
  decide

/-- Witness for C5 on the concrete table with an unparsable numeric
cell. -/
theorem c5_coercion_never_aborts_witness :
    missingColumns messyTable = [] ∧
      load_data messyTable = .ok (processRows messyTable.rows) :=
  ⟨by decide, c5_coercion_never_aborts messyTable (by decide)⟩

/-- C3: every record the loader returns has the mandatory identifying
fields present after coercion — system, shaft size, stern size, priority,
FSA template and hose code — because rows lacking any of them are dropped
by the `dropna` filter before the result is built. -/
theorem c3_mandatory_fields (t : RawTable) (recs : List BuildOptionRecord)
    (h : load_data t = .ok recs) (r : BuildOptionRecord) (hr : r ∈ recs) :
    r.system.isSome ∧ r.shaftSize.isSome ∧ r.sternSize.isSome ∧
      r.priority.isSome ∧ r.fsaTemplate.isSome ∧ r.hoseCode.isSome := by
  unfold load_data at h
  by_cases hmc : missingColumns t ≠ []
  · rw [if_pos hmc] at h
    simp at h
  · rw [if_neg hmc] at h
    injection h with h
    subst h
    unfold processRows at hr
    obtain ⟨c, hc, hrc⟩ := List.mem_map.mp hr
    obtain ⟨_, husable⟩ := List.mem_filter.mp hc
    subst hrc
    unfold rowUsable at husable
    simp only [Bool.and_eq_true] at husable
    unfold finalizeRow
    refine ⟨?_, ?_, ?_, ?_, ?_, ?_⟩ <;>
      simp_all [Option.isSome_map]

/-- A raw row with every field present and parseable. -/
def goodRow : RawRow where
  cells :=
    [("System", some "A"), ("ShaftSize", some "1.0"),
     ("ShaftUnits", some "in"), ("SternSize", some "2.0"),
     ("SternUnits", some "in"), ("Priority", some "1"),
     ("FSA_Template", some "F1"), ("Hose_Code", some "H1"),
     ("Clamp1_Code", some "K1"), ("Clamp1_Qty", some "2"),
     ("Clamp2_Code", some "K2"), ("Clamp2_Qty", some "1"),
     ("Is_US_Recommended", some "yes"), ("Stretch_Type", some "none"),
     ("Comments", some "ok")]

/-- A schema-valid table containing `goodRow`. -/
def goodTable : RawTable where
  header := requiredColumns
  rows := [goodRow]

/-- Witness for C3 on the concrete one-row table. -/
theorem c3_mandatory_fields_witness :
    (finalizeRow (coerceRow goodRow)).system.isSome ∧
      (finalizeRow (coerceRow goodRow)).shaftSize.isSome ∧
      (finalizeRow (coerceRow goodRow)).sternSize.isSome ∧
      (finalizeRow (coerceRow goodRow)).priority.isSome ∧
      (finalizeRow (coerceRow goodRow)).fsaTemplate.isSome ∧
      (finalizeRow (coerceRow goodRow)).hoseCode.isSome := by
  have h : load_data goodTable = .ok (processRows goodTable.rows) := by
    unfold load_data
    rw [if_neg (not_not_intro (by decide))]
  have hr : finalizeRow (coerceRow goodRow) ∈ processRows goodTable.rows := by
    decide
  exact c3_mandatory_fields goodTable (processRows goodTable.rows) h
    (finalizeRow (coerceRow goodRow)) hr
